import Mathlib

set_option maxHeartbeats 1000000

namespace CloudGrader

/- ===== Generic helpers modelling JavaScript string / number idioms ===== -/

/-- Lowercase a string, modelling the JavaScript toLowerCase call (ASCII data). -/
def lowerStr (s : String) : String := String.mk (s.toList.map Char.toLower)

/-- Is this an ASCII whitespace character (the common part of the JavaScript
notion of whitespace)? -/
def isWS (c : Char) : Bool :=
  c == ' ' || c == '\t' || c == '\n' || c == '\r' || c == '\x0b' || c == '\x0c'

/-- Model of the JavaScript String.trim method on ASCII data. -/
def trimStr (s : String) : String :=
  String.mk (((s.toList.dropWhile isWS).reverse.dropWhile isWS).reverse)

/-- Split a char list at every occurrence of a separator character, keeping empty
segments, exactly like the JavaScript split method with a one-character separator. -/
def splitOnChar (sep : Char) : List Char → List (List Char)
  | [] => [[]]
  | c :: t =>
    let r := splitOnChar sep t
    if c = sep then [] :: r
    else
      match r with
      | h :: rt => (c :: h) :: rt
      | [] => [[c]]

/-- Model of the JavaScript s.split(sep) for a one-character separator. -/
def splitStr (s : String) (sep : Char) : List String :=
  (splitOnChar sep s.toList).map String.mk

/-- Model of the JavaScript list.join(sep). -/
def joinWith (sep : String) : List String → String
  | [] => ""
  | [x] => x
  | x :: y :: t => x ++ sep ++ joinWith sep (y :: t)

/-- JavaScript numeric default idiom x || d: yields d when x is absent (undefined,
parseInt NaN) or 0, since 0 is falsy in JavaScript. -/
def jsOrNat (o : Option Nat) (d : Nat) : Nat :=
  match o with
  | some n => if n = 0 then d else n
  | none => d

/-- JavaScript string default idiom x || d: yields d when x is absent or empty. -/
def jsOrStr (o : Option String) (d : String) : String :=
  match o with
  | some s => if s = "" then d else s
  | none => d

/-- JavaScript truthiness of an optional number (0, null and undefined are falsy). -/
def truthyNum (o : Option Nat) : Bool :=
  match o with
  | some n => n != 0
  | none => false

/-- Char-list version of String.startsWith (case sensitive). -/
def listStartsWith : List Char → List Char → Bool
  | _, [] => true
  | [], _ :: _ => false
  | a :: as, b :: bs => a == b && listStartsWith as bs

/-- Substring test on char lists, modelling the JavaScript String.includes method
(first argument is the pattern, second the haystack). -/
def listHasSub (pat : List Char) : List Char → Bool
  | [] => listStartsWith [] pat
  | c :: t => listStartsWith (c :: t) pat || listHasSub pat t

/-- Model of the JavaScript expression s.includes(sub). -/
def strIncludes (s sub : String) : Bool := listHasSub sub.toList s.toList

/-- Case-insensitive character equality (ASCII fold). -/
def lowerEqChar (a b : Char) : Bool := a.toLower == b.toLower

/-- Char-list startsWith under ASCII case folding. -/
def listStartsWithCI : List Char → List Char → Bool
  | _, [] => true
  | [], _ :: _ => false
  | a :: as, b :: bs => lowerEqChar a b && listStartsWithCI as bs

/-- Worker for case-insensitive replace-all; the pattern is th :: tt (nonempty)
and the fuel starts at the input length, which always suffices. -/
def replaceAllCIgo (th : Char) (tt repl : List Char) : Nat → List Char → List Char
  | 0, s => s
  | _ + 1, [] => []
  | fuel + 1, c :: t =>
    if listStartsWithCI (c :: t) (th :: tt) then
      repl ++ replaceAllCIgo th tt repl fuel (t.drop tt.length)
    else
      c :: replaceAllCIgo th tt repl fuel t

/-- Model of the JavaScript s.replace(target-regex, repl) with the gi flags, where
the target is a literal string matched case-insensitively. -/
def replaceAllCI (s target repl : String) : String :=
  match target.toList with
  | [] => s
  | th :: tt => String.mk (replaceAllCIgo th tt repl.toList s.toList.length s.toList)

/-- Worker for case-sensitive replace-all; the pattern is th :: tt (nonempty)
and the fuel starts at the input length, which always suffices. -/
def replaceAllCSgo (th : Char) (tt repl : List Char) : Nat → List Char → List Char
  | 0, s => s
  | _ + 1, [] => []
  | fuel + 1, c :: t =>
    if listStartsWith (c :: t) (th :: tt) then
      repl ++ replaceAllCSgo th tt repl fuel (t.drop tt.length)
    else
      c :: replaceAllCSgo th tt repl fuel t

/-- Model of the JavaScript s.replace(target-regex, repl) with the g flag, where
the target is a literal string matched case-sensitively. -/
def replaceAllCS (s target repl : String) : String :=
  match target.toList with
  | [] => s
  | th :: tt => String.mk (replaceAllCSgo th tt repl.toList s.toList.length s.toList)

/-- Everything after the last occurrence of sep, modelling split(sep).pop(). -/
def afterLast (sep : Char) (l : List Char) : List Char :=
  (l.reverse.takeWhile (fun c => c != sep)).reverse

/-- Model of filename.split the-slash .pop().split the-backslash .pop() from
checkFilename: strip any directory components from a path. -/
def basename (s : String) : String :=
  String.mk (afterLast '\\' (afterLast '/' s.toList))

/-- Model of the JavaScript replace with a dot-psd-at-end regex and the i flag:
strip a trailing ".psd" (any letter case). -/
def stripPsd (s : String) : String :=
  let cs := s.toList
  if 4 ≤ cs.length ∧ (cs.drop (cs.length - 4)).map Char.toLower = ['.', 'p', 's', 'd'] then
    String.mk (cs.take (cs.length - 4))
  else s

/-- Model of the extension stripper in parseCanvasFilename: strip a trailing
".psd" or ".zip" (any letter case). -/
def stripDocExt (s : String) : String :=
  let cs := s.toList
  let tail4 := (cs.drop (cs.length - 4)).map Char.toLower
  if 4 ≤ cs.length ∧ (tail4 = ['.', 'p', 's', 'd'] ∨ tail4 = ['.', 'z', 'i', 'p']) then
    String.mk (cs.take (cs.length - 4))
  else s

/-- Model of maxScore-guarded Math.round((score / maxScore) * 100): round half up
on nonnegative rationals, 0 when maxScore is 0. -/
def jsRoundPct (score maxScore : Nat) : Nat :=
  if maxScore = 0 then 0 else (200 * score + maxScore) / (2 * maxScore)

/- ===== A small semantics for the JavaScript regexes the code builds =====
The filename checker compiles pattern strings with new RegExp. We give the
constructs that those generated patterns use (literals, escapes, character
classes, groups, quantifiers, the dot) a standard semantics through Brzozowski
derivatives. Patterns outside this subset (alternation bars, negated classes,
named groups) make the parser fail, which the checker treats as a non-match,
the same way the JavaScript code treats a RegExp compile failure. -/

/-- One member of a regex character class. -/
inductive CItem where
  | single (c : Char)
  | range (lo hi : Char)
  | digit
  | space
  deriving Repr, DecidableEq

/-- Regex abstract syntax after parsing (counted repetition is expanded). -/
inductive Re where
  | nul
  | eps
  | dot
  | lit (c : Char)
  | cls (items : List CItem)
  | cat (a b : Re)
  | alt (a b : Re)
  | star (a : Re)
  deriving Repr, DecidableEq

/-- Character comparison under the optional i flag. -/
def ciEq (ci : Bool) (a b : Char) : Bool := a == b || (ci && lowerEqChar a b)

/-- Does one class member accept a character (honouring the i flag)? -/
def citemMatch (ci : Bool) (it : CItem) (c : Char) : Bool :=
  match it with
  | .single x => ciEq ci x c
  | .range lo hi =>
    (decide (lo ≤ c) && decide (c ≤ hi)) ||
      (ci && ((decide (lo ≤ c.toLower) && decide (c.toLower ≤ hi)) ||
              (decide (lo ≤ c.toUpper) && decide (c.toUpper ≤ hi))))
  | .digit => decide ('0' ≤ c) && decide (c ≤ '9')
  | .space => c == ' ' || c == '\t' || c == '\n' || c == '\r' || c == '\x0b' || c == '\x0c'

/-- Does the regex accept the empty string? -/
def nullable : Re → Bool
  | .nul => false
  | .eps => true
  | .dot => false
  | .lit _ => false
  | .cls _ => false
  | .cat a b => nullable a && nullable b
  | .alt a b => nullable a || nullable b
  | .star _ => true

/-- Smart concatenation (keeps derivative terms small). -/
def mkCat : Re → Re → Re
  | .nul, _ => .nul
  | .eps, b => b
  | _, .nul => .nul
  | a, .eps => a
  | a, b => .cat a b

/-- Smart alternation (keeps derivative terms small). -/
def mkAlt : Re → Re → Re
  | .nul, b => b
  | a, .nul => a
  | a, b => .alt a b

/-- Brzozowski derivative of a regex by one character. -/
def deriv (ci : Bool) (r : Re) (c : Char) : Re :=
  match r with
  | .nul => .nul
  | .eps => .nul
  | .dot => if c == '\n' || c == '\r' then .nul else .eps
  | .lit x => if ciEq ci x c then .eps else .nul
  | .cls items => if items.any (fun it => citemMatch ci it c) then .eps else .nul
  | .cat a b =>
    if nullable a then mkAlt (mkCat (deriv ci a c) b) (deriv ci b c)
    else mkCat (deriv ci a c) b
  | .alt a b => mkAlt (deriv ci a c) (deriv ci b c)
  | .star a => mkCat (deriv ci a c) (.star a)

/-- Anchored (whole-string) regex match, as used for template patterns that the
code wraps in caret and dollar anchors. -/
def reFull (ci : Bool) (r : Re) (s : List Char) : Bool :=
  nullable (s.foldl (fun acc c => deriv ci acc c) r)

/-- Does the regex match some prefix of the input? -/
def reMatchesPre (ci : Bool) : Re → List Char → Bool
  | r, [] => nullable r
  | r, c :: t => nullable r || reMatchesPre ci (deriv ci r c) t

/-- Unanchored search, modelling the JavaScript RegExp test method. -/
def reSearch (ci : Bool) (r : Re) : List Char → Bool
  | [] => reMatchesPre ci r []
  | c :: t => reMatchesPre ci r (c :: t) || reSearch ci r t

/-- Exactly n copies of a regex (expansion of a counted quantifier). -/
def repN : Nat → Re → Re
  | 0, _ => .eps
  | n + 1, r => mkCat r (repN n r)

/-- Up to n copies of a regex (expansion of the upper part of a counted quantifier). -/
def optN : Nat → Re → Re
  | 0, _ => .eps
  | n + 1, r => mkAlt .eps (mkCat r (optN n r))

/-- Regex atom for an escape sequence outside a class. -/
def escAtom (c : Char) : Re :=
  if c = 'd' then .cls [.digit]
  else if c = 's' then .cls [.space]
  else .lit c

/-- Is this character a decimal digit? -/
def isDigitChar (c : Char) : Bool := decide ('0' ≤ c) && decide (c ≤ '9')

/-- Digits to a number (for counted quantifiers). -/
def digitsToNat (l : List Char) : Nat :=
  l.foldl (fun acc c => acc * 10 + (c.toNat - '0'.toNat)) 0

/-- Parse the items of a character class up to the closing bracket. -/
def parseClassItems : Nat → List Char → Option (List CItem × List Char)
  | 0, _ => none
  | _ + 1, [] => none
  | fuel + 1, c :: t =>
    if c = ']' then some ([], t)
    else if c = '\\' then
      match t with
      | [] => none
      | e :: t2 =>
        let it : CItem := if e = 'd' then .digit else if e = 's' then .space else .single e
        (parseClassItems fuel t2).map (fun p => (it :: p.1, p.2))
    else
      match t with
      | '-' :: d :: t2 =>
        if d = ']' then
          (parseClassItems fuel ('-' :: d :: t2)).map (fun p => (CItem.single c :: p.1, p.2))
        else
          (parseClassItems fuel t2).map (fun p => (CItem.range c d :: p.1, p.2))
      | _ => (parseClassItems fuel t).map (fun p => (CItem.single c :: p.1, p.2))

/-- Apply a quantifier that may follow an atom; consumes nothing when the next
characters do not form a quantifier. -/
def applyQuant (r : Re) (s : List Char) : Re × List Char :=
  match s with
  | '*' :: t => (.star r, t)
  | '+' :: t => (mkCat r (.star r), t)
  | '?' :: t => (mkAlt .eps r, t)
  | '\x7b' :: t =>
    let ds := t.takeWhile isDigitChar
    let t2 := t.drop ds.length
    if ds.isEmpty then (r, s)
    else
      let n := digitsToNat ds
      match t2 with
      | '\x7d' :: t3 => (repN n r, t3)
      | ',' :: t3 =>
        let ds2 := t3.takeWhile isDigitChar
        let t4 := t3.drop ds2.length
        match t4 with
        | '\x7d' :: t5 =>
          if ds2.isEmpty then (mkCat (repN n r) (.star r), t5)
          else (mkCat (repN n r) (optN (digitsToNat ds2 - n) r), t5)
        | _ => (r, s)
      | _ => (r, s)
  | _ => (r, s)

mutual

/-- Parse a regex sequence up to the end of input or an unconsumed closing paren. -/
def parseSeq : Nat → List Char → Option (Re × List Char)
  | 0, _ => none
  | _ + 1, [] => some (.eps, [])
  | fuel + 1, c :: t =>
    if c = ')' then some (.eps, c :: t)
    else
      match parseItem fuel (c :: t) with
      | some (r, rest) =>
        match parseSeq fuel rest with
        | some (r2, rest2) => some (mkCat r r2, rest2)
        | none => none
      | none => none

/-- Parse one atom plus an optional quantifier. -/
def parseItem : Nat → List Char → Option (Re × List Char)
  | 0, _ => none
  | fuel + 1, s =>
    match parseAtom fuel s with
    | some (r, rest) => some (applyQuant r rest)
    | none => none

/-- Parse one regex atom. -/
def parseAtom : Nat → List Char → Option (Re × List Char)
  | 0, _ => none
  | _ + 1, [] => none
  | fuel + 1, c :: t =>
    if c = '(' then
      match parseSeq fuel t with
      | some (r, rest) =>
        match rest with
        | ')' :: rest2 => some (r, rest2)
        | _ => none
      | none => none
    else if c = '[' then
      (parseClassItems (t.length + 1) t).map (fun p => (Re.cls p.1, p.2))
    else if c = '\\' then
      match t with
      | [] => none
      | e :: t2 => some (escAtom e, t2)
    else if c = '.' then some (.dot, t)
    else if c = '*' || c = '+' || c = '?' || c = '|' || c = ')' then none
    else some (.lit c, t)

end

/-- Parse a full regex pattern string; none models a RegExp compile failure or a
construct outside the modelled subset. -/
def parseRegex (s : String) : Option Re :=
  match parseSeq (s.toList.length + 2) s.toList with
  | some (r, []) => some r
  | _ => none

/- ===== Filename pattern matcher (checkFilename and the part_000 variant) ===== -/

/-- Is this one of the characters the escaping regex in the source treats as a
regex metacharacter? -/
def isRegexSpecial (c : Char) : Bool :=
  c == '.' || c == '*' || c == '+' || c == '?' || c == '^' || c == '$' ||
    c == '\x7b' || c == '\x7d' || c == '(' || c == ')' || c == '|' ||
    c == '[' || c == ']' || c == '\\'

/-- Model of the escaping step: prefix every regex metacharacter with a backslash. -/
def escapeRegexChars : List Char → List Char
  | [] => []
  | c :: t => if isRegexSpecial c then '\\' :: c :: escapeRegexChars t else c :: escapeRegexChars t

/-- String version of the escaping step. -/
def escapeRegexStr (s : String) : String := String.mk (escapeRegexChars s.toList)

/-- Protection step of the template compiler: each of the six placeholder tokens,
matched case-insensitively, becomes a sentinel marker. -/
def protectPlaceholders (p : String) : String :=
  replaceAllCI
    (replaceAllCI
      (replaceAllCI
        (replaceAllCI
          (replaceAllCI
            (replaceAllCI p "{CLASS}" "<<<CLASS>>>")
            "{LASTNAME}" "<<<LASTNAME>>>")
          "{FIRSTNAME}" "<<<FIRSTNAME>>>")
        "{ASSIGNMENT}" "<<<ASSIGNMENT>>>")
      "{NUMBER}" "<<<NUMBER>>>")
    "{ANY}" "<<<ANY>>>"

/-- Substitution step of the template compiler: each sentinel becomes the regex
fragment given for its token. -/
def substPlaceholders (s cl ln fn asg num anyf : String) : String :=
  replaceAllCS
    (replaceAllCS
      (replaceAllCS
        (replaceAllCS
          (replaceAllCS
            (replaceAllCS s "<<<CLASS>>>" cl)
            "<<<LASTNAME>>>" ln)
          "<<<FIRSTNAME>>>" fn)
        "<<<ASSIGNMENT>>>" asg)
      "<<<NUMBER>>>" num)
    "<<<ANY>>>" anyf

/-- The CLASS regex fragment used by checkFilename in file-processor.js. -/
def fragClassFP : String := "([A-Za-z]\x7b2,5\x7d[\\s-]?\\d\x7b2,4\x7d)"

/-- The ASSIGNMENT regex fragment used by checkFilename in file-processor.js. -/
def fragAssignFP : String := "([A-Za-z]*\\d[A-Za-z0-9]*)"

/-- Model of checkFilename from file-processor.js: strip directories and the psd
extension, apply the case toggle, then dispatch on the pattern type; the default
branch is the placeholder-template compiler anchored at both ends. -/
def checkFilename (filename pattern patternType caseSensitive : String) : Bool :=
  let baseFilename := basename filename
  let nameWithoutExt := stripPsd baseFilename
  let cs := caseSensitive == "yes"
  let checkName := if cs then nameWithoutExt else lowerStr nameWithoutExt
  let checkPattern := if cs then pattern else lowerStr pattern
  if patternType == "exact" then checkName == checkPattern
  else if patternType == "contains" then strIncludes checkName checkPattern
  else if patternType == "regex" then
    match parseRegex pattern with
    | some re => reSearch (!cs) re nameWithoutExt.toList
    | none => false
  else
    let protectedPattern := protectPlaceholders checkPattern
    let escapedPattern := escapeRegexStr protectedPattern
    let regexPattern :=
      substPlaceholders escapedPattern fragClassFP "([A-Za-z]+)" "([A-Za-z]+)"
        fragAssignFP "(\\d+)" "(.+)"
    match parseRegex regexPattern with
    | some re => reFull (!cs) re checkName.toList
    | none => false

/-- Model of validatePlaceholderPattern from the frontend utilities file
(src/unnamed/part_000); it differs from checkFilename only in its ASSIGNMENT
fragment and in taking an already extension-stripped name plus a boolean flag. -/
def validatePlaceholderPattern (filename pattern : String) (caseSensitive : Bool) : Bool :=
  let checkName := if caseSensitive then filename else lowerStr filename
  let checkPattern := if caseSensitive then pattern else lowerStr pattern
  let protectedPattern := protectPlaceholders checkPattern
  let escapedPattern := escapeRegexStr protectedPattern
  let regexPattern :=
    substPlaceholders escapedPattern fragClassFP "([A-Za-z]+)" "([A-Za-z]+)"
      "([A-Za-z]*[\\s-]?\\d+)" "(\\d+)" "(.+)"
  match parseRegex regexPattern with
  | some re => reFull (!caseSensitive) re checkName.toList
  | none => false

/- ===== Header Reader: extractBasicPSDInfo from file-processor.js ===== -/

/-- The error conditions extractBasicPSDInfo can raise. tooSmall is the
"File too small to be a PSD" throw, invalidSignature the "Invalid PSD signature"
throw, invalidDimensions the "Invalid dimensions detected" throw and
invalidBitDepth the "Invalid bit depth detected" throw (the spec groups the last
two as InvalidHeader). oob marks a byte access outside the buffer; the JavaScript
code never performs one, which the bounds theorem below establishes. -/
inductive PSDErr where
  | tooSmall
  | invalidSignature
  | invalidDimensions
  | invalidBitDepth
  | oob
  deriving Repr, DecidableEq

/-- The BasicInfo record returned by extractBasicPSDInfo. -/
structure BasicInfo where
  width : Nat
  height : Nat
  bitDepth : Nat
  colorMode : String
  version : Nat
  rawColorMode : Nat
  deriving Repr, DecidableEq

/-- Bounds-checked single byte read from the buffer. -/
def readByte (d : List Nat) (i : Nat) : Except PSDErr Nat :=
  match d[i]? with
  | some b => .ok b
  | none => .error .oob

/-- Bounds-checked big-endian 16-bit read (DataView getUint16 with big-endian flag). -/
def be16E (d : List Nat) (i : Nat) : Except PSDErr Nat :=
  match readByte d i, readByte d (i + 1) with
  | .ok a, .ok b => .ok (a * 256 + b)
  | _, _ => .error .oob

/-- Bounds-checked big-endian 32-bit read (DataView getUint32 with big-endian flag). -/
def be32E (d : List Nat) (i : Nat) : Except PSDErr Nat :=
  match readByte d i, readByte d (i + 1), readByte d (i + 2), readByte d (i + 3) with
  | .ok a, .ok b, .ok c, .ok e => .ok (((a * 256 + b) * 256 + c) * 256 + e)
  | _, _, _, _ => .error .oob

/-- Unchecked big-endian 16-bit value (missing bytes read as 0); used only to
state theorems about buffers whose length already guarantees the reads succeed. -/
def be16v (d : List Nat) (i : Nat) : Nat := d.getD i 0 * 256 + d.getD (i + 1) 0

/-- Unchecked big-endian 32-bit value (missing bytes read as 0); used only to
state theorems about buffers whose length already guarantees the reads succeed. -/
def be32v (d : List Nat) (i : Nat) : Nat :=
  ((d.getD i 0 * 256 + d.getD (i + 1) 0) * 256 + d.getD (i + 2) 0) * 256 + d.getD (i + 3) 0

/-- The color mode table shared by the parser paths; unknown codes render as the
Unknown string exactly as the JavaScript template literal does. -/
def colorModeName (n : Nat) : String :=
  match n with
  | 0 => "Bitmap"
  | 1 => "Grayscale"
  | 2 => "Indexed"
  | 3 => "RGB"
  | 4 => "CMYK"
  | 7 => "Multichannel"
  | 8 => "Duotone"
  | 9 => "Lab"
  | _ => s!"Unknown ({n})"

/-- The color mode lookup of the byte-level fallback, whose JavaScript default is
the RGB string rather than an Unknown marker. -/
def fbColorName (n : Nat) : String :=
  match n with
  | 0 => "Bitmap"
  | 1 => "Grayscale"
  | 2 => "Indexed"
  | 3 => "RGB"
  | 4 => "CMYK"
  | 7 => "Multichannel"
  | 8 => "Duotone"
  | 9 => "Lab"
  | _ => "RGB"

/-- The try block of extractBasicPSDInfo: signature check (the four bytes of
"8BPS" are 56, 66, 80, 83), DataView reads of version, height, width, depth and
color mode, then the dimension and bit depth validations. -/
def mainExtract (d : List Nat) : Except PSDErr BasicInfo :=
  match readByte d 0, readByte d 1, readByte d 2, readByte d 3 with
  | .ok s0, .ok s1, .ok s2, .ok s3 =>
    if s0 = 56 ∧ s1 = 66 ∧ s2 = 80 ∧ s3 = 83 then
      match be16E d 4, be32E d 14, be32E d 18, be16E d 22, be16E d 24 with
      | .ok version, .ok height, .ok width, .ok depth, .ok cm =>
        if width = 0 ∨ height = 0 ∨ 30000 < width ∨ 30000 < height then
          .error .invalidDimensions
        else if depth = 1 ∨ depth = 8 ∨ depth = 16 ∨ depth = 32 then
          .ok { width, height, bitDepth := depth, colorMode := colorModeName cm,
                version, rawColorMode := cm }
        else .error .invalidBitDepth
      | _, _, _, _, _ => .error .oob
    else .error .invalidSignature
  | _, _, _, _ => .error .oob

/-- The catch block of extractBasicPSDInfo: recompute width, height, depth and
color mode from raw bytes, accept the buffer when both dimensions are strictly
between 0 and 30000, and otherwise rethrow the original error. The JavaScript
32-bit shifts can go negative where these Nat values exceed 2^31, but both
readings fail the strict 30000 bound there, so acceptance agrees. -/
def fbExtract (d : List Nat) (e : PSDErr) : Except PSDErr BasicInfo :=
  match be32E d 18, be32E d 14, be16E d 22, be16E d 24 with
  | .ok width, .ok height, .ok depth, .ok cm =>
    if 0 < width ∧ 0 < height ∧ width < 30000 ∧ height < 30000 then
      .ok { width, height, bitDepth := if depth = 0 then 8 else depth,
            colorMode := fbColorName cm, version := 1, rawColorMode := cm }
    else .error e
  | _, _, _, _ => .error .oob

/-- Model of extractBasicPSDInfo: the 26-byte minimum check runs before the try
block; any error thrown inside the try block lands in the byte-level fallback. -/
def extractBasicPSDInfo (d : List Nat) : Except PSDErr BasicInfo :=
  if d.length < 26 then .error .tooSmall
  else
    match mainExtract d with
    | .ok info => .ok info
    | .error e => fbExtract d e

/- ===== The parsed layer tree delivered by the external full decoder ===== -/

/-- Model of layer.text.style as ag-psd delivers it; absent attributes are none. -/
structure TextStyle where
  font : Option String := none
  fontName : Option String := none
  fontFamily : Option String := none
  fontSize : Option Nat := none
  fillColor : Option Nat := none
  deriving Repr, DecidableEq

/-- Model of one style run, covering both an entry of the rich-text engine run
array (its StyleSheet.StyleSheetData fields) and an entry of layer.text.styles. -/
structure RunStyle where
  font : Option String := none
  fontSize : Option Nat := none
  fontFamily : Option String := none
  deriving Repr, DecidableEq

/-- Model of layer.text. engineRuns collapses the optional chain
document.engineData.EngineDict.StyleRun.RunArray: it is some list exactly when
that chain is present. -/
structure TextData where
  text : Option String := none
  style : Option TextStyle := none
  engineRuns : Option (List RunStyle) := none
  styles : Option (List RunStyle) := none
  deriving Repr, DecidableEq

/-- One node of the parsed layer tree. Optional object-valued fields are some
exactly when the JavaScript property is present (an empty object or list is
still truthy); children is some for group nodes. -/
inductive SrcLayer where
  | mk
    (name : Option String)
    (hidden : Bool)
    (opacity : Option Nat)
    (blendMode : Option String)
    (text : Option TextData)
    (adjustment : Option (List String))
    (effects : Option (List String))
    (mask : Bool)
    (placedLayer : Bool)
    (vectorMask : Bool)
    (vectorStroke : Bool)
    (children : Option (List SrcLayer))

/-- The name field of a layer node. -/
def SrcLayer.name : SrcLayer → Option String
  | .mk n _ _ _ _ _ _ _ _ _ _ _ => n

/-- The children field of a layer node. -/
def SrcLayer.children : SrcLayer → Option (List SrcLayer)
  | .mk _ _ _ _ _ _ _ _ _ _ _ ch => ch

/-- Model of the resolutionInfo image resource. -/
structure ResolutionInfo where
  horizontalResolution : Option Nat := none
  deriving Repr, DecidableEq

/-- Model of psd.imageResources. -/
structure ImageResources where
  resolutionInfo : Option ResolutionInfo := none
  deriving Repr, DecidableEq

/-- Model of the object the external readPsd call returns. -/
structure Psd where
  width : Option Nat := none
  height : Option Nat := none
  colorMode : Option Nat := none
  bitsPerChannel : Option Nat := none
  channels : Option Nat := none
  imageResources : Option ImageResources := none
  children : Option (List SrcLayer) := none

/-- The flat per-layer record extractLayers builds. Fields the JavaScript code
only sets inside conditionals keep their absent defaults otherwise. -/
structure LayerInfo where
  name : String
  type : String
  visible : Bool
  opacity : Nat
  blendMode : String
  depth : Nat
  isText : Bool := false
  textContent : String := ""
  fontSize : Option Nat := none
  fontName : Option String := none
  fontColor : Option Nat := none
  fontFamily : Option String := none
  fontPostScriptName : Option String := none
  fontSizePoints : Option Nat := none
  isAdjustment : Bool := false
  adjustmentType : Option String := none
  hasEffects : Bool := false
  effects : List String := []
  hasMask : Bool := false
  isSmartObject : Bool := false
  isVector : Bool := false
  deriving Repr, DecidableEq

/-- Model of getLayerType: strict priority text, adjustment, smart object,
shape, group, raster; the first present capability wins. -/
def getLayerType : SrcLayer → String
  | .mk _ _ _ _ t adj _ _ pl vm vs ch =>
    if t.isSome then "text"
    else if adj.isSome then "adjustment"
    else if pl then "smartObject"
    else if vm || vs then "shape"
    else if ch.isSome then "group"
    else "raster"

/-- Keep a truthy (present and nonempty) string, otherwise the current value. -/
def setStrIf (o : Option String) (curr : Option String) : Option String :=
  match o with
  | some s => if s = "" then curr else some s
  | none => curr

/-- Keep a truthy (present and nonzero) number, otherwise the current value. -/
def setNatIf (o : Option Nat) (curr : Option Nat) : Option Nat :=
  match o with
  | some n => if n = 0 then curr else some n
  | none => curr

/-- Model of the per-layer record construction inside extractLayers: the common
fields, then the text enrichment (direct style attributes unconditionally, the
first engine run and the first styles entry under truthiness guards), then the
adjustment, effects, mask, smart object and vector flags. -/
def layerInfoOf : SrcLayer → Nat → LayerInfo
  | .mk n h o b t adj eff m pl vm vs ch, d =>
    let base : LayerInfo :=
      { name := jsOrStr n "Unnamed Layer",
        type := getLayerType (.mk n h o b t adj eff m pl vm vs ch),
        visible := !h,
        opacity := jsOrNat o 255,
        blendMode := jsOrStr b "normal",
        depth := d }
    let i1 :=
      match t with
      | none => base
      | some td =>
        let a1 := { base with isText := true, textContent := (td.text.getD "") }
        let a2 :=
          match td.style with
          | some st =>
            { a1 with fontSize := st.fontSize, fontName := st.fontName,
                      fontColor := st.fillColor, fontFamily := st.fontFamily }
          | none => a1
        let a3 :=
          match td.engineRuns with
          | some (r :: _) =>
            { a2 with fontPostScriptName := setStrIf r.font a2.fontPostScriptName,
                      fontSizePoints := setNatIf r.fontSize a2.fontSizePoints }
          | _ => a2
        match td.styles with
        | some (s :: _) =>
          { a3 with fontName := setStrIf s.font a3.fontName,
                    fontSize := setNatIf s.fontSize a3.fontSize,
                    fontFamily := setStrIf s.fontFamily a3.fontFamily }
        | _ => a3
    let i2 :=
      match adj with
      | some keys => { i1 with isAdjustment := true, adjustmentType := keys.head? }
      | none => i1
    let i3 :=
      match eff with
      | some keys => { i2 with hasEffects := true, effects := keys }
      | none => i2
    let i4 := if m then { i3 with hasMask := true } else i3
    let i5 := if pl then { i4 with isSmartObject := true } else i4
    if vm || vs then { i5 with isVector := true } else i5

mutual

/-- processLayer from extractLayers: push the layer record, then recurse into the
children of a group at depth + 1. -/
def extractGoLayer : SrcLayer → Nat → List LayerInfo
  | .mk n h o b t adj eff m pl vm vs (some cs), d =>
    layerInfoOf (.mk n h o b t adj eff m pl vm vs (some cs)) d :: extractGoList cs (d + 1)
  | .mk n h o b t adj eff m pl vm vs none, d =>
    [layerInfoOf (.mk n h o b t adj eff m pl vm vs none) d]

/-- Iterate processLayer over a sibling list in source order. -/
def extractGoList : List SrcLayer → Nat → List LayerInfo
  | [], _ => []
  | l :: t, d => extractGoLayer l d ++ extractGoList t d

end

/-- Model of extractLayers: walk the root children in source order and reverse
the accumulated flat list into bottom-to-top order. -/
def extractLayers (psd : Psd) : List LayerInfo :=
  (match psd.children with
   | some cs => extractGoList cs 0
   | none => []).reverse

/- ===== Document Parser: analyzePSDData and createFallbackAnalysis ===== -/

/-- The analysis record analyzePSDData produces. The normal path of the
JavaScript code never sets isLimitedParse, which an absent (falsy) property
models as false; the thumbnail field is display-only and omitted. -/
structure Analysis where
  filename : String
  originalFilename : String
  width : Nat
  height : Nat
  colorMode : String
  bitDepth : Nat
  resolution : Nat
  hasTransparency : Bool
  layerCount : Nat
  layerNames : List String
  layers : List LayerInfo
  fileSize : Nat
  parseNote : Option String
  isLimitedParse : Bool := false

/-- Model of createFallbackAnalysis: header facts only, one synthesized raster
Background layer, isLimitedParse set. The JavaScript layer object carries no
depth property; the record default 0 stands in for that absent field. -/
def createFallbackAnalysis (basicInfo : BasicInfo) (filename : String) (fileSize : Nat)
    (note : String) : Analysis :=
  { filename,
    originalFilename := filename,
    width := basicInfo.width,
    height := basicInfo.height,
    colorMode := basicInfo.colorMode,
    bitDepth := basicInfo.bitDepth,
    resolution := 72,
    hasTransparency := basicInfo.colorMode ≠ "CMYK",
    layerCount := 1,
    layerNames := ["Background"],
    layers := [{ name := "Background", type := "raster", visible := true,
                 opacity := 255, blendMode := "normal", depth := 0 }],
    fileSize,
    parseNote := some note,
    isLimitedParse := true }

/-- The metadata extraction analyzePSDData performs after a readPsd strategy
succeeds: color mode lookup, layer walk, bit depth and transparency defaults,
resolution from the image resources, file size and the parse note. -/
def buildAnalysis (psd : Psd) (filename : String) (dataLen : Nat)
    (parseNote : Option String) : Analysis :=
  let layers := extractLayers psd
  { filename,
    originalFilename := filename,
    width := psd.width.getD 0,
    height := psd.height.getD 0,
    colorMode := match psd.colorMode with
      | some n => colorModeName n
      | none => "Unknown (undefined)",
    bitDepth := jsOrNat psd.bitsPerChannel 8,
    resolution := match psd.imageResources with
      | some ir =>
        match ir.resolutionInfo with
        | some ri => jsOrNat ri.horizontalResolution 72
        | none => 72
      | none => 72,
    hasTransparency := match psd.channels with
      | some c => 4 ≤ c
      | none => false,
    layerCount := layers.length,
    layerNames := layers.map (fun l => jsOrStr (some l.name) "Unnamed Layer"),
    layers,
    fileSize := dataLen,
    parseNote,
    isLimitedParse := false }

/-- Model of the decode ladder of analyzePSDData. The three readPsd strategies
are external, so their outcomes are inputs; the first success wins and a success
after the first records the fallback-method note. When all three fail, the
Header Reader result decides between the synthesized fallback analysis and the
final unable-to-analyze error carrying the message of the last strategy failure. -/
def analyzePSDData (data : List Nat) (att1 att2 att3 : Except String Psd)
    (filename : String) : Except String Analysis :=
  match att1 with
  | .ok psd => .ok (buildAnalysis psd filename data.length none)
  | .error _ =>
    match att2 with
    | .ok psd => .ok (buildAnalysis psd filename data.length
        (some "Used fallback parsing method 2"))
    | .error _ =>
      match att3 with
      | .ok psd => .ok (buildAnalysis psd filename data.length
          (some "Used fallback parsing method 3"))
      | .error e3 =>
        match extractBasicPSDInfo data with
        | .ok bi =>
          let cm := bi.colorMode
          .ok (createFallbackAnalysis bi filename data.length
            s!"{cm} file - header analysis only")
        | .error _ => .error s!"Unable to analyze PSD file: {e3}"

/- ===== Scoring Engine: gradeFile from file-processor.js ===== -/

/-- The flat criteria object gradeFile consumes. Numeric fields model the result
of parseInt: none when the input was absent or not numeric. -/
structure Criteria where
  pointsPerCriterion : Option Nat := none
  enableFilenameSection : Bool := false
  filenamePoints : Option Nat := none
  filenamePattern : String := ""
  filenamePatternType : String := ""
  filenameCaseSensitive : String := ""
  reqWidth : Option Nat := none
  reqHeight : Option Nat := none
  reqColorMode : String := ""
  minLayers : Option Nat := none
  reqLayers : String := ""
  deriving Repr, DecidableEq

/-- One entry of the checks list gradeFile builds. -/
structure CriterionCheck where
  criterion : String
  expected : String
  actual : String
  passed : Bool
  points : Nat
  requiredLayers : List String := []
  foundLayers : List String := []
  deriving Repr, DecidableEq

/-- The grading record gradeFile returns. -/
structure GradeResult where
  filename : String
  originalFilename : String
  score : Nat
  maxScore : Nat
  percentage : Nat
  checks : List CriterionCheck
  analysis : Analysis

/-- Worker for the display transform of placeholder patterns. -/
def bracketDisplayGo : Nat → List Char → List Char
  | 0, s => s
  | _ + 1, [] => []
  | fuel + 1, c :: t =>
    if c = '\x7b' then
      let inner := t.takeWhile (fun x => x != '\x7d')
      let rest := t.drop inner.length
      match rest with
      | '\x7d' :: t2 =>
        if inner.isEmpty then c :: bracketDisplayGo fuel t
        else '<' :: (inner ++ '>' :: bracketDisplayGo fuel t2)
      | _ => c :: bracketDisplayGo fuel t
    else c :: bracketDisplayGo fuel t

/-- Model of the display-only replace that rewrites each brace placeholder into
angle brackets for the expected column. -/
def bracketDisplay (s : String) : String :=
  String.mk (bracketDisplayGo s.toList.length s.toList)

/-- Model of gradeFile: every rule group contributes to score, maxScore and the
checks list only when its criterion is enabled (filename) or truthy (width,
height, color mode, minimum layers, nonempty required-layer string); the
percentage is the rounded score share, or 0 when maxScore is 0. -/
def gradeFile (a : Analysis) (c : Criteria) : GradeResult :=
  let pointsPerCriterion := jsOrNat c.pointsPerCriterion 20
  let filenamePoints := jsOrNat c.filenamePoints 10
  let fnPassed := checkFilename a.originalFilename c.filenamePattern
    c.filenamePatternType c.filenameCaseSensitive
  let expectedDisplay :=
    if c.filenamePatternType == "custom" || strIncludes c.filenamePatternType "_" then
      bracketDisplay c.filenamePattern
    else c.filenamePattern
  let fnOn := c.enableFilenameSection
  let fnChecks : List CriterionCheck :=
    if fnOn then
      [{ criterion := "Filename", expected := expectedDisplay,
         actual := stripPsd a.originalFilename, passed := fnPassed,
         points := if fnPassed then filenamePoints else 0 }]
    else []
  let wOn := truthyNum c.reqWidth
  let wTarget := c.reqWidth.getD 0
  let aWidth := a.width
  let wPassed := aWidth == wTarget
  let wChecks : List CriterionCheck :=
    if wOn then
      [{ criterion := "Width", expected := s!"{wTarget}px",
         actual := s!"{aWidth}px", passed := wPassed,
         points := if wPassed then pointsPerCriterion else 0 }]
    else []
  let hOn := truthyNum c.reqHeight
  let hTarget := c.reqHeight.getD 0
  let aHeight := a.height
  let hPassed := aHeight == hTarget
  let hChecks : List CriterionCheck :=
    if hOn then
      [{ criterion := "Height", expected := s!"{hTarget}px",
         actual := s!"{aHeight}px", passed := hPassed,
         points := if hPassed then pointsPerCriterion else 0 }]
    else []
  let cmOn := c.reqColorMode != ""
  let cmPassed := a.colorMode == c.reqColorMode
  let cmChecks : List CriterionCheck :=
    if cmOn then
      [{ criterion := "Color Mode", expected := c.reqColorMode,
         actual := a.colorMode, passed := cmPassed,
         points := if cmPassed then pointsPerCriterion else 0 }]
    else []
  let mlOn := truthyNum c.minLayers
  let mlTarget := c.minLayers.getD 0
  let aLayerCount := a.layerCount
  let mlPassed := mlTarget ≤ aLayerCount
  let mlChecks : List CriterionCheck :=
    if mlOn then
      [{ criterion := "Minimum Layers", expected := s!"{mlTarget}+ layers",
         actual := s!"{aLayerCount} layers", passed := mlPassed,
         points := if mlPassed then pointsPerCriterion else 0 }]
    else []
  let rlOn := c.reqLayers != ""
  let requiredLayers := ((splitStr c.reqLayers ',').map trimStr).filter (fun s => s != "")
  let foundLayers := requiredLayers.filter (fun r =>
    a.layerNames.any (fun ln => strIncludes (lowerStr ln) (lowerStr r)))
  let rlPassed := foundLayers.length == requiredLayers.length
  let rlChecks : List CriterionCheck :=
    if rlOn then
      [{ criterion := "Required Layers", expected := joinWith ", " requiredLayers,
         actual := if 0 < foundLayers.length then joinWith ", " foundLayers else "None found",
         passed := rlPassed,
         points := if rlPassed then pointsPerCriterion else 0,
         requiredLayers, foundLayers }]
    else []
  let score :=
    (if fnOn && fnPassed then filenamePoints else 0) +
    (if wOn && wPassed then pointsPerCriterion else 0) +
    (if hOn && hPassed then pointsPerCriterion else 0) +
    (if cmOn && cmPassed then pointsPerCriterion else 0) +
    (if mlOn && mlPassed then pointsPerCriterion else 0) +
    (if rlOn && rlPassed then pointsPerCriterion else 0)
  let maxScore :=
    (if fnOn then filenamePoints else 0) +
    (if wOn then pointsPerCriterion else 0) +
    (if hOn then pointsPerCriterion else 0) +
    (if cmOn then pointsPerCriterion else 0) +
    (if mlOn then pointsPerCriterion else 0) +
    (if rlOn then pointsPerCriterion else 0)
  { filename := a.filename,
    originalFilename := a.originalFilename,
    score, maxScore,
    percentage := jsRoundPct score maxScore,
    checks := fnChecks ++ wChecks ++ hChecks ++ cmChecks ++ mlChecks ++ rlChecks,
    analysis := a }

/- ===== Font rule: checkFontRequirements from the server file ===== -/

/-- The fonts criteria group as checkFontRequirements reads it
(absent arrays behave like empty ones under optional chaining). -/
structure FontCriteria where
  approvedFonts : List String := []
  requiredFonts : List String := []
  deriving Repr, DecidableEq

/-- One entry of the per-font detail list. -/
structure FontDetail where
  name : String
  approved : Bool
  deriving Repr, DecidableEq

/-- The record checkFontRequirements returns. -/
structure FontCheckResult where
  valid : Bool
  usedFonts : List String
  violations : List String
  fontDetails : List FontDetail
  hasNoFonts : Bool := false
  deriving Repr, DecidableEq

/-- Insertion-ordered set add, modelling the JavaScript Set the extractor fills. -/
def addFontUnique (acc : List String) (s : String) : List String :=
  if acc.contains s then acc else acc ++ [s]

/-- Add a font candidate when it is truthy (present and nonempty). -/
def addIfTruthy (acc : List String) (o : Option String) : List String :=
  match o with
  | some s => if s = "" then acc else addFontUnique acc s
  | none => acc

/-- The text-layer part of the font extractor: the three style attributes in
probe order, then every font of the engine run array. -/
def textFonts (acc : List String) (t : Option TextData) : List String :=
  match t with
  | none => acc
  | some td =>
    let a1 := addIfTruthy acc (td.style.bind TextStyle.font)
    let a2 := addIfTruthy a1 (td.style.bind TextStyle.fontName)
    let a3 := addIfTruthy a2 (td.style.bind TextStyle.fontFamily)
    match td.engineRuns with
    | some runs => runs.foldl (fun ac r => addIfTruthy ac r.font) a3
    | none => a3

mutual

/-- extractFonts on one layer: collect from the text data, then recurse into the
children of a group. -/
def fontsFromLayer (acc : List String) : SrcLayer → List String
  | .mk _ _ _ _ t _ _ _ _ _ _ (some cs) => fontsFromList (textFonts acc t) cs
  | .mk _ _ _ _ t _ _ _ _ _ _ none => textFonts acc t

/-- extractFonts on a sibling list in source order. -/
def fontsFromList (acc : List String) : List SrcLayer → List String
  | [] => acc
  | l :: t => fontsFromList (fontsFromLayer acc l) t

end

/-- Model of checkFontRequirements: an empty extracted font set short-circuits to
a valid result; otherwise every used font is checked against the approved list
by two-way substring inclusion and every required font must appear as a
substring of some used font, with violations collected in order. -/
def checkFontRequirements (psd : Psd) (criteria : FontCriteria) : FontCheckResult :=
  let usedFonts := fontsFromList [] (psd.children.getD [])
  if usedFonts.isEmpty then
    { valid := true, usedFonts := [], violations := [], fontDetails := [],
      hasNoFonts := true }
  else
    let approvedStep : List FontDetail × List String × Bool :=
      if 0 < criteria.approvedFonts.length then
        let approvedList := criteria.approvedFonts.map (fun f => trimStr (lowerStr f))
        usedFonts.foldl
          (fun acc font =>
            let fontLower := lowerStr font
            let isApproved := approvedList.any (fun ap =>
              strIncludes fontLower ap || strIncludes ap fontLower)
            let details := acc.1 ++ [{ name := font, approved := isApproved }]
            if isApproved then (details, acc.2.1, acc.2.2)
            else (details, acc.2.1 ++ [s!"Unapproved font: {font}"], false))
          ([], [], true)
      else
        (usedFonts.map (fun f => ({ name := f, approved := true } : FontDetail)), [], true)
    let requiredStep : List String × Bool :=
      criteria.requiredFonts.foldl
        (fun acc reqFont =>
          if usedFonts.any (fun font =>
              strIncludes (lowerStr font) (lowerStr reqFont)) then acc
          else (acc.1 ++ [s!"Missing required font: {reqFont}"], false))
        (approvedStep.2.1, approvedStep.2.2)
    { valid := requiredStep.2,
      usedFonts,
      violations := requiredStep.1,
      fontDetails := approvedStep.1,
      hasNoFonts := false }

/- ===== Submission Decoder: parseCanvasFilename from the server file ===== -/

/-- The Canvas submission metadata record. -/
structure CanvasInfo where
  studentName : String
  isLate : Bool
  submissionStatus : String
  userId : String
  submissionId : String
  originalFilename : String
  firstName : String
  lastName : String
  deriving Repr, DecidableEq

/-- The name heuristic regex of parseCanvasFilename: a leading lowercase run and
an optional capitalized run (one uppercase letter then one or more lowercase).
Returns the first and last name the JavaScript match groups produce, or none
when the anchored regex fails. -/
def firstLastSplit (s : String) : Option (String × String) :=
  let cs := s.toList
  let lower := cs.takeWhile (fun ch => decide ('a' ≤ ch) && decide (ch ≤ 'z'))
  let rest := cs.drop lower.length
  if lower.isEmpty then none
  else
    match rest with
    | [] => some (String.mk lower, String.mk lower)
    | r0 :: rtail =>
      if (decide ('A' ≤ r0) && decide (r0 ≤ 'Z')) && !rtail.isEmpty &&
          rtail.all (fun ch => decide ('a' ≤ ch) && decide (ch ≤ 'z')) then
        some (String.mk lower, String.mk (r0 :: rtail))
      else none

/-- Model of parseCanvasFilename: strip the document extension, split on
underscores, reject names with fewer than five segments, read the LATE token at
index 1, shift the field indices by one when it is present, rejoin the trailing
segments into the original filename and guess the first and last name. -/
def parseCanvasFilename (filename : String) : Option CanvasInfo :=
  let nameWithoutExt := stripDocExt filename
  let parts := splitStr nameWithoutExt '_'
  if parts.length < 5 then none
  else
    let p1 := parts.getD 1 ""
    let isLate := p1 == "LATE"
    let startIdx := if isLate then 2 else 1
    let studentName := parts.getD 0 ""
    let nameSplit := firstLastSplit studentName
    some
      { studentName, isLate,
        submissionStatus := if isLate then "LATE" else p1,
        userId := parts.getD startIdx "",
        submissionId := parts.getD (startIdx + 1) "",
        originalFilename := joinWith "_" (parts.drop (startIdx + 2)),
        firstName := match nameSplit with
          | some p => p.1
          | none => "",
        lastName := match nameSplit with
          | some p => p.2
          | none => studentName }

/- ===== Supporting lemmas ===== -/

/-- A byte read inside the buffer succeeds and yields the default-free value. -/
theorem readByte_ok {d : List Nat} {i : Nat} (h : i < d.length) :
    readByte d i = .ok (d.getD i 0) := by
  unfold readByte
  rw [List.getElem?_eq_getElem h]
  simp [List.getD_eq_getElem?_getD, List.getElem?_eq_getElem h]

/-- A 16-bit read inside the buffer succeeds and yields the unchecked value. -/
theorem be16E_ok {d : List Nat} {i : Nat} (h : i + 1 < d.length) :
    be16E d i = .ok (be16v d i) := by
  unfold be16E be16v
  rw [readByte_ok (by omega), readByte_ok h]

/-- A 32-bit read inside the buffer succeeds and yields the unchecked value. -/
theorem be32E_ok {d : List Nat} {i : Nat} (h : i + 3 < d.length) :
    be32E d i = .ok (be32v d i) := by
  unfold be32E be32v
  rw [readByte_ok (by omega), readByte_ok (by omega), readByte_ok (by omega), readByte_ok h]

/-- takeWhile ignores everything from the first failing element on. -/
theorem takeWhile_append_stop (p : Char → Bool) (as : List Char) (b : Char)
    (bs : List Char) (hb : p b = false) :
    (as ++ b :: bs).takeWhile p = as.takeWhile p := by
  induction as with
  | nil => simp [List.takeWhile_cons, hb]
  | cons a t ih =>
    by_cases h : p a <;> simp [List.takeWhile_cons, h, ih]

/-- The tail after the last separator is unchanged by prefixing more segments. -/
theorem afterLast_append (sep : Char) (xs ys : List Char) :
    afterLast sep (xs ++ sep :: ys) = afterLast sep ys := by
  unfold afterLast
  rw [List.reverse_append, List.reverse_cons, List.append_assoc,
    List.singleton_append, takeWhile_append_stop]
  simp

/-- Prefixing a directory and a slash never changes the extracted base name. -/
theorem basename_append_slash (d n : String) :
    basename (d ++ "/" ++ n) = basename n := by
  unfold basename
  have h : (d ++ "/" ++ n).toList = d.toList ++ '/' :: n.toList := by
    simp [String.toList, String.data_append]
  rw [h, afterLast_append]

/- ===== Claims about the Header Reader (C3, C4, C5) ===== -/

/-- The 26-byte buffer from the spec example: correct signature, height 50,
width 100, bit depth 8, color mode 3. -/
def goodHeaderBytes : List Nat :=
  [56, 66, 80, 83, 0, 1, 0, 0, 0, 0, 0, 0, 0, 0,
   0, 0, 0, 50, 0, 0, 0, 100, 0, 8, 0, 3]

/-- A 26-byte buffer whose first four bytes spell AAAA instead of the format
signature, with otherwise plausible header fields (height 50, width 100). -/
def badSigBytes : List Nat :=
  [65, 65, 65, 65, 0, 1, 0, 0, 0, 0, 0, 0, 0, 0,
   0, 0, 0, 50, 0, 0, 0, 100, 0, 8, 0, 3]

/-- A correctly signed 26-byte buffer declaring bit depth 3 with in-range
dimensions (height 50, width 100). -/
def depth3Bytes : List Nat :=
  [56, 66, 80, 83, 0, 1, 0, 0, 0, 0, 0, 0, 0, 0,
   0, 0, 0, 50, 0, 0, 0, 100, 0, 3, 0, 3]

/-- C3 counterexample: a 26-byte buffer with a wrong signature for which the
Header Reader returns a BasicInfo instead of failing, because the catch-all
byte-level fallback accepts any plausible dimensions; this refutes the claim
that such buffers always fail with InvalidSignature. -/
theorem claim_C3_invalid_signature_counterexample :
    extractBasicPSDInfo badSigBytes =
      .ok { width := 100, height := 50, bitDepth := 8, colorMode := "RGB",
            version := 1, rawColorMode := 3 } := rfl

/-- C3 (amended): for a buffer of at least 26 bytes whose first four bytes differ
from the signature, the Header Reader fails with InvalidSignature exactly when
the byte-level fallback dimensions are not both strictly between 0 and 30000;
otherwise the fallback swallows the signature error and returns a BasicInfo. -/
theorem claim_C3_invalid_signature : ∀ d : List Nat, 26 ≤ d.length →
    ¬(d.getD 0 0 = 56 ∧ d.getD 1 0 = 66 ∧ d.getD 2 0 = 80 ∧ d.getD 3 0 = 83) →
    ¬(0 < be32v d 18 ∧ 0 < be32v d 14 ∧ be32v d 18 < 30000 ∧ be32v d 14 < 30000) →
    extractBasicPSDInfo d = .error .invalidSignature := by
  intro d h26 hsig hdim
  unfold extractBasicPSDInfo
  rw [if_neg (by omega)]
  unfold mainExtract
  rw [readByte_ok (by omega), readByte_ok (by omega), readByte_ok (by omega),
    readByte_ok (by omega)]
  dsimp only
  rw [if_neg hsig]
  unfold fbExtract
  rw [be32E_ok (by omega), be32E_ok (by omega), be16E_ok (by omega), be16E_ok (by omega)]
  dsimp only
  rw [if_neg hdim]

/-- C3 amended-claim witness at the all-zero 26-byte buffer (zero width). -/
theorem claim_C3_invalid_signature_witness :
    extractBasicPSDInfo (List.replicate 26 0) = .error .invalidSignature :=
  claim_C3_invalid_signature (List.replicate 26 0) (by decide) (by decide) (by decide)

/-- C4 counterexample: a correctly signed buffer declaring bit depth 3 for which
the Header Reader returns a BasicInfo carrying bitDepth 3, because the catch-all
byte-level fallback validates only the dimensions; this refutes the claim that a
declared bit depth of 3 always fails with InvalidHeader. -/
theorem claim_C4_invalid_header_counterexample :
    extractBasicPSDInfo depth3Bytes =
      .ok { width := 100, height := 50, bitDepth := 3, colorMode := "RGB",
            version := 1, rawColorMode := 3 } := rfl

/-- C4 (amended): on a correctly signed buffer of at least 26 bytes, a declared
width of 0 or 40000 fails with the invalid-dimensions error (InvalidHeader), but
a declared bit depth of 3 with dimensions strictly inside the bounds yields a
BasicInfo with bitDepth 3 from the byte-level fallback instead of failing. -/
theorem claim_C4_invalid_header : ∀ d : List Nat, 26 ≤ d.length →
    d.getD 0 0 = 56 → d.getD 1 0 = 66 → d.getD 2 0 = 80 → d.getD 3 0 = 83 →
    ((be32v d 18 = 0 ∨ be32v d 18 = 40000) →
      extractBasicPSDInfo d = .error .invalidDimensions) ∧
    (0 < be32v d 18 → be32v d 18 < 30000 → 0 < be32v d 14 → be32v d 14 < 30000 →
      be16v d 22 = 3 →
      extractBasicPSDInfo d =
        .ok { width := be32v d 18, height := be32v d 14, bitDepth := 3,
              colorMode := fbColorName (be16v d 24), version := 1,
              rawColorMode := be16v d 24 }) := by
  intro d h26 h0 h1 h2 h3
  constructor
  · intro hw
    unfold extractBasicPSDInfo
    rw [if_neg (by omega)]
    unfold mainExtract
    rw [readByte_ok (by omega), readByte_ok (by omega), readByte_ok (by omega),
      readByte_ok (by omega)]
    dsimp only
    rw [if_pos ⟨h0, h1, h2, h3⟩]
    rw [be16E_ok (by omega), be32E_ok (by omega), be32E_ok (by omega),
      be16E_ok (by omega), be16E_ok (by omega)]
    dsimp only
    rw [if_pos (by omega)]
    unfold fbExtract
    rw [be32E_ok (by omega), be32E_ok (by omega), be16E_ok (by omega),
      be16E_ok (by omega)]
    dsimp only
    rw [if_neg (by omega)]
  · intro hw1 hw2 hh1 hh2 hd
    unfold extractBasicPSDInfo
    rw [if_neg (by omega)]
    unfold mainExtract
    rw [readByte_ok (by omega), readByte_ok (by omega), readByte_ok (by omega),
      readByte_ok (by omega)]
    dsimp only
    rw [if_pos ⟨h0, h1, h2, h3⟩]
    rw [be16E_ok (by omega), be32E_ok (by omega), be32E_ok (by omega),
      be16E_ok (by omega), be16E_ok (by omega)]
    dsimp only
    rw [if_neg (by omega), if_neg (by omega)]
    unfold fbExtract
    rw [be32E_ok (by omega), be32E_ok (by omega), be16E_ok (by omega),
      be16E_ok (by omega)]
    dsimp only
    rw [if_pos ⟨hw1, hh1, hw2, hh2⟩]
    rw [hd]
    rw [if_neg (by omega)]

/-- C4 amended-claim witness: the zero-width buffer fails with the
invalid-dimensions error and the depth-3 buffer yields bitDepth 3. -/
theorem claim_C4_invalid_header_witness :
    extractBasicPSDInfo
        [56, 66, 80, 83, 0, 1, 0, 0, 0, 0, 0, 0, 0, 0,
         0, 0, 0, 50, 0, 0, 0, 0, 0, 8, 0, 3] = .error .invalidDimensions ∧
    extractBasicPSDInfo depth3Bytes =
      .ok { width := 100, height := 50, bitDepth := 3, colorMode := "RGB",
            version := 1, rawColorMode := 3 } := by
  constructor
  · exact (claim_C4_invalid_header _ (by decide) (by decide) (by decide) (by decide)
      (by decide)).1 (by decide)
  · exact (claim_C4_invalid_header depth3Bytes (by decide) (by decide) (by decide)
      (by decide) (by decide)).2 (by decide) (by decide) (by decide) (by decide)
      (by decide)

/-- C5: a buffer shorter than 26 bytes fails with TooSmall, and on any buffer of
at least 26 bytes neither the main path nor the byte-level fallback ever hits an
out-of-bounds read, so the Header Reader never accesses a byte position outside
the buffer (short buffers are rejected before any read). -/
theorem claim_C5_header_bounds : ∀ d : List Nat,
    (d.length < 26 → extractBasicPSDInfo d = .error .tooSmall) ∧
    (26 ≤ d.length → mainExtract d ≠ .error .oob ∧
      ∀ e, e ≠ PSDErr.oob → fbExtract d e ≠ .error .oob) := by
  intro d
  constructor
  · intro h
    unfold extractBasicPSDInfo
    rw [if_pos h]
  · intro h26
    constructor
    · unfold mainExtract
      rw [readByte_ok (by omega), readByte_ok (by omega), readByte_ok (by omega),
        readByte_ok (by omega)]
      dsimp only
      rw [be16E_ok (by omega), be32E_ok (by omega), be32E_ok (by omega),
        be16E_ok (by omega), be16E_ok (by omega)]
      split
      · dsimp only
        split
        · simp
        · split <;> simp
      · simp
    · intro e he
      unfold fbExtract
      rw [be32E_ok (by omega), be32E_ok (by omega), be16E_ok (by omega),
        be16E_ok (by omega)]
      dsimp only
      split
      · simp
      · simpa using he

/-- C5 witness: a three-byte buffer is rejected as TooSmall, and on the example
header buffer neither the main path nor the fallback given a non-oob error can
produce the out-of-bounds marker. -/
theorem claim_C5_header_bounds_witness :
    extractBasicPSDInfo [1, 2, 3] = .error .tooSmall ∧
    mainExtract goodHeaderBytes ≠ .error .oob ∧
    fbExtract goodHeaderBytes .invalidSignature ≠ .error .oob := by
  refine ⟨(claim_C5_header_bounds [1, 2, 3]).1 (by decide),
    ((claim_C5_header_bounds goodHeaderBytes).2 (by decide)).1,
    ((claim_C5_header_bounds goodHeaderBytes).2 (by decide)).2 .invalidSignature (by decide)⟩

/- ===== Claim about the decode ladder (C1) ===== -/

/-- C1 counterexample: when the two richer full-decode strategies fail and the
third, header-only decode strategy succeeds (returning a tree without layers, as
its skip-layers option produces), the resulting analysis has isLimitedParse
false and an empty layer list, not the claimed limited-parse Background result. -/
theorem claim_C1_decode_ladder_counterexample :
    (analyzePSDData goodHeaderBytes (.error "strategy 1 failed")
        (.error "strategy 2 failed") (.ok {}) "file.psd").map
      (fun a => (a.isLimitedParse, a.layers)) = .ok (false, []) := rfl

/-- C1 (amended): when all three full-decode strategies fail and the Header
Reader succeeds, the analysis is the synthesized fallback: isLimitedParse true
and exactly one raster layer named Background. -/
theorem claim_C1_decode_ladder : ∀ (d : List Nat) (e1 e2 e3 f : String) (bi : BasicInfo),
    extractBasicPSDInfo d = .ok bi →
    (analyzePSDData d (.error e1) (.error e2) (.error e3) f).map
      (fun a => (a.isLimitedParse, a.layers.map (fun l => (l.name, l.type)))) =
      .ok (true, [("Background", "raster")]) := by
  intro d e1 e2 e3 f bi h
  unfold analyzePSDData
  rw [h]
  rfl

/-- C1 amended-claim witness at the example header buffer. -/
theorem claim_C1_decode_ladder_witness :
    (analyzePSDData goodHeaderBytes (.error "strategy 1 failed")
        (.error "strategy 2 failed") (.error "strategy 3 failed") "file.psd").map
      (fun a => (a.isLimitedParse, a.layers.map (fun l => (l.name, l.type)))) =
      .ok (true, [("Background", "raster")]) :=
  claim_C1_decode_ladder goodHeaderBytes "strategy 1 failed" "strategy 2 failed"
    "strategy 3 failed" "file.psd"
    { width := 100, height := 50, bitDepth := 8, colorMode := "RGB",
      version := 1, rawColorMode := 3 } rfl

/- ===== Claim about the scoring engine (C2) ===== -/

/-- C2: with only the width rule enabled at 20 points and every other rule
disabled or carrying an empty target, maxScore is 20 for every analysis, and an
analysis whose width equals the target scores 20 with percentage 100; the
disabled and unconfigured rules contribute nothing. -/
theorem claim_C2_width_only_scoring : ∀ (a : Analysis) (c : Criteria) (w : Nat),
    c.pointsPerCriterion = some 20 →
    c.enableFilenameSection = false →
    c.reqWidth = some w → w ≠ 0 →
    truthyNum c.reqHeight = false →
    c.reqColorMode = "" →
    truthyNum c.minLayers = false →
    c.reqLayers = "" →
    (gradeFile a c).maxScore = 20 ∧
      (a.width = w → (gradeFile a c).score = 20 ∧ (gradeFile a c).percentage = 100) := by
  intro a c w h1 h2 h3 h4 h5 h6 h7 h8
  have hw : truthyNum c.reqWidth = true := by
    rw [h3]
    simpa [truthyNum] using h4
  constructor
  · simp [gradeFile, h1, h2, h5, h6, h7, h8, hw, jsOrNat]
  · intro hweq
    have hpass : (a.width == c.reqWidth.getD 0) = true := by
      rw [h3]
      simpa using hweq
    constructor
    · simp [gradeFile, h1, h2, h5, h6, h7, h8, hw, hpass, jsOrNat]
    · simp [gradeFile, h1, h2, h5, h6, h7, h8, hw, hpass, jsOrNat, jsRoundPct]

/-- C2 witness: a width-only criteria object at 20 points over a 1920 by 1080
analysis with matching width gives maxScore 20, score 20 and percentage 100. -/
theorem claim_C2_width_only_scoring_witness :
    (gradeFile
        { filename := "f.psd", originalFilename := "f.psd", width := 1920,
          height := 1080, colorMode := "RGB", bitDepth := 8, resolution := 72,
          hasTransparency := true, layerCount := 3, layerNames := ["Background"],
          layers := [], fileSize := 10, parseNote := none }
        { pointsPerCriterion := some 20, reqWidth := some 1920 }).maxScore = 20 ∧
    (gradeFile
        { filename := "f.psd", originalFilename := "f.psd", width := 1920,
          height := 1080, colorMode := "RGB", bitDepth := 8, resolution := 72,
          hasTransparency := true, layerCount := 3, layerNames := ["Background"],
          layers := [], fileSize := 10, parseNote := none }
        { pointsPerCriterion := some 20, reqWidth := some 1920 }).score = 20 ∧
    (gradeFile
        { filename := "f.psd", originalFilename := "f.psd", width := 1920,
          height := 1080, colorMode := "RGB", bitDepth := 8, resolution := 72,
          hasTransparency := true, layerCount := 3, layerNames := ["Background"],
          layers := [], fileSize := 10, parseNote := none }
        { pointsPerCriterion := some 20, reqWidth := some 1920 }).percentage = 100 := by
  have h := claim_C2_width_only_scoring
    { filename := "f.psd", originalFilename := "f.psd", width := 1920,
      height := 1080, colorMode := "RGB", bitDepth := 8, resolution := 72,
      hasTransparency := true, layerCount := 3, layerNames := ["Background"],
      layers := [], fileSize := 10, parseNote := none }
    { pointsPerCriterion := some 20, reqWidth := some 1920 }
    1920 rfl rfl rfl (by decide) rfl rfl rfl rfl
  exact ⟨h.1, (h.2 rfl).1, (h.2 rfl).2⟩

/- ===== Claim about the layer extractor (C6) ===== -/

/-- C6: a parsed tree whose top-level layers are the leaf layers A, B, C in
source (top to bottom) order extracts to the reversed, bottom-to-top sequence
C, B, A. -/
theorem claim_C6_layer_order : ∀ (p : Psd) (a b c : SrcLayer),
    p.children = some [a, b, c] →
    a.children = none → b.children = none → c.children = none →
    extractLayers p = [layerInfoOf c 0, layerInfoOf b 0, layerInfoOf a 0] := by
  intro p a b c hp ha hb hc
  unfold extractLayers
  rw [hp]
  cases a with
  | mk an ah ao ab at' aadj aeff am apl avm avs ach =>
    simp only [SrcLayer.children] at ha
    subst ha
    cases b with
    | mk bn bh bo bb bt badj beff bm bpl bvm bvs bch =>
      simp only [SrcLayer.children] at hb
      subst hb
      cases c with
      | mk cn ch' co cb ct cadj ceff cm' cpl cvm cvs cch =>
        simp only [SrcLayer.children] at hc
        subst hc
        simp [extractGoList, extractGoLayer]

/-- C6 witness at three concrete leaf layers named A, B and C. -/
theorem claim_C6_layer_order_witness :
    extractLayers
        { children := some
            [SrcLayer.mk (some "A") false none none none none none false false false false none,
             SrcLayer.mk (some "B") false none none none none none false false false false none,
             SrcLayer.mk (some "C") false none none none none none false false false false none] } =
      [layerInfoOf (SrcLayer.mk (some "C") false none none none none none false false false false none) 0,
       layerInfoOf (SrcLayer.mk (some "B") false none none none none none false false false false none) 0,
       layerInfoOf (SrcLayer.mk (some "A") false none none none none none false false false false none) 0] :=
  claim_C6_layer_order _ _ _ _ rfl rfl rfl rfl

/- ===== Claim about the template matcher (C7) ===== -/

/-- C7: the CLASS-LASTNAME-ASSIGNMENT template pattern, matched
case-insensitively, accepts DES222_Smith_A01 and rejects DES222Smith_A01 (which
lacks the separator between the class and name segments), in both the
checkFilename template branch and the frontend validatePlaceholderPattern. -/
theorem claim_C7_template_match :
    checkFilename "DES222_Smith_A01.psd" "{CLASS}_{LASTNAME}_{ASSIGNMENT}" "custom" "no" = true ∧
    checkFilename "DES222Smith_A01.psd" "{CLASS}_{LASTNAME}_{ASSIGNMENT}" "custom" "no" = false ∧
    validatePlaceholderPattern "DES222_Smith_A01" "{CLASS}_{LASTNAME}_{ASSIGNMENT}" false = true ∧
    validatePlaceholderPattern "DES222Smith_A01" "{CLASS}_{LASTNAME}_{ASSIGNMENT}" false = false :=
  ⟨by decide, by decide, by decide, by decide⟩

/- ===== Claim about the submission decoder (C8) ===== -/

/-- C8: whenever the extension-stripped filename splits on underscores into at
least five segments with the literal LATE token second, the decode is marked
late and the user id, submission id and rejoined original filename come from the
segments shifted one position right. -/
theorem claim_C8_canvas_decode : ∀ (f p0 p2 p3 r0 : String) (rest : List String),
    splitStr (stripDocExt f) '_' = p0 :: "LATE" :: p2 :: p3 :: r0 :: rest →
    (parseCanvasFilename f).map
        (fun i => (i.isLate, i.userId, i.submissionId, i.originalFilename)) =
      some (true, p2, p3, joinWith "_" (r0 :: rest)) := by
  intro f p0 p2 p3 r0 rest h
  unfold parseCanvasFilename
  dsimp only
  rw [h]
  simp [List.getD]

/-- C8 witness: the spec example decodes to a late submission with user id
12345, submission id 67890 and original filename MyFile. -/
theorem claim_C8_canvas_decode_witness :
    (parseCanvasFilename "johnSmith_LATE_12345_67890_MyFile.psd").map
        (fun i => (i.isLate, i.userId, i.submissionId, i.originalFilename)) =
      some (true, "12345", "67890", "MyFile") :=
  claim_C8_canvas_decode "johnSmith_LATE_12345_67890_MyFile.psd"
    "johnSmith" "12345" "67890" "MyFile" [] (by decide)

/- ===== Claim about the font rule (C9) ===== -/

/-- C9: a document whose extracted font set is empty makes the font rule pass,
for every criteria object, in particular for a nonempty approved-fonts list. -/
theorem claim_C9_font_rule_empty : ∀ (psd : Psd) (crit : FontCriteria),
    fontsFromList [] (psd.children.getD []) = [] →
    (checkFontRequirements psd crit).valid = true := by
  intro psd crit h
  unfold checkFontRequirements
  rw [h]
  rfl

/-- C9 witness: a document with one fontless raster layer against an approved
list containing Arial still passes the font rule. -/
theorem claim_C9_font_rule_empty_witness :
    (checkFontRequirements
        { children := some
            [SrcLayer.mk (some "bg") false none none none none none false false false false none] }
        { approvedFonts := ["Arial"] }).valid = true :=
  claim_C9_font_rule_empty _ _ rfl

/- ===== Claim about directory stripping (C10) ===== -/

/-- C10: the filename checker strips directory components before any comparison,
so in every mode and for every pattern a candidate of the form dir slash name
matches exactly when the bare name matches. -/
theorem claim_C10_basename_strip : ∀ (dir name pattern ptype caseS : String),
    checkFilename (dir ++ "/" ++ name) pattern ptype caseS =
      checkFilename name pattern ptype caseS := by
  intro dir name pattern ptype caseS
  unfold checkFilename
  rw [basename_append_slash]

end CloudGrader
